import Mathlib

/-!
# pulsarsdk: lifecycle facade over a publish/subscribe client

A shallow embedding of `pulsarsdk/pulsar.go`.  The package keeps three
package-level variables (`cli`, `done`, `subscriptMsgPool`); here they are the
fields of `Globals` and every function takes the globals it reads and returns
the globals it leaves behind, together with the ordered list of calls it made
on its collaborators (the pulsar client, the ants pool, the user callback).

Conventions of the embedding:
* a Go pointer or interface value is an `Option` (`none` is `nil`);
* objects of the pulsar client are identified by a number (`Handle`);
* a call that dereferences `nil` ends as `Outcome.panicked`, a channel
  operation that cannot proceed ends as `Outcome.blocked`;
* the results of the collaborators are parameters (`Broker`, `newPool`).
-/

namespace pulsarsdk

set_option linter.dupNamespace false

/-! ## Data model -/

/-- Errors of the underlying libraries, identified by their text. -/
abbrev Error := String

/-- Identity of an object owned by the pulsar client library. -/
abbrev Handle := Nat

/-- Go `int` / `int64` wrap-around. -/
def wrap64 (x : Int) : Int := (x + 2 ^ 63) % 2 ^ 64 - 2 ^ 63

/-- The part of `pulsar.ClientOptions` the package passes through untouched. -/
structure ClientOptions where
  URL : String
  deriving DecidableEq, Repr

/-- The fields of `pulsar.ProducerOptions` that `NewProducer` sets. -/
structure ProducerOptions where
  Topic : String
  SendTimeout : Int
  MaxPendingMessages : Int
  DisableBatching : Bool
  BatchingMaxMessages : Nat
  BatchingMaxSize : Nat
  deriving DecidableEq, Repr

/-- Subscription type of `pulsar.ConsumerOptions.Type`. -/
inductive SubscriptionType
  | Exclusive
  | Shared
  | Failover
  | KeyShared
  deriving DecidableEq, Repr

/-- Initial position of `pulsar.ConsumerOptions.SubscriptionInitialPosition`. -/
inductive SubscriptionInitialPosition
  | Latest
  | Earliest
  deriving DecidableEq, Repr

/-- The fields of `pulsar.ConsumerOptions` that `NewConsumer` sets. -/
structure ConsumerOptions where
  Topic : String
  Type_ : SubscriptionType
  SubscriptionName : String
  RetryEnable : Bool
  AutoDiscoveryPeriod : Int
  SubscriptionInitialPosition : SubscriptionInitialPosition
  ReceiverQueueSize : Nat
  deriving DecidableEq, Repr

/-- A message as delivered on a consumer channel. -/
structure Message where
  ID : Nat
  Payload : List Nat
  deriving DecidableEq, Repr

/-- The calls the package makes on its collaborators, in the order made. -/
inductive Effect
  | NewClient (option : ClientOptions)
  | NewPool (size : Int) (nonblocking : Bool) (preAlloc : Bool)
  | CreateProducer (o : ProducerOptions)
  | Subscribe (o : ConsumerOptions)
  | ConsumerClose (h : Handle)
  | ProducerFlush (h : Handle)
  | ProducerClose (h : Handle)
  | DoneSend
  | ClientClose (h : Handle)
  | CallBack (message : Option Message) (err : Option Error)
  | AckID (id : Nat)
  deriving DecidableEq, Repr

/-- A unit of work handed to the pool: the calls its body makes, in order. -/
abbrev Task := List Effect

/-- Value of `type Producer struct { prod pulsar.Producer }`. -/
structure Producer where
  prod : Option Handle
  deriving DecidableEq, Repr

/-- Value of `type Consumer struct { consumer pulsar.Consumer }`. -/
structure Consumer where
  consumer : Option Handle
  deriving DecidableEq, Repr

/-- Value of `type Client struct`: the embedded session and the two registries
of pointers. -/
structure Client where
  Client : Handle
  prodList : List (Option Producer)
  subList : List (Option Consumer)
  deriving DecidableEq, Repr

/-- State of an `ants.Pool` as far as the package can observe it: the size it
was built with, the accepted units of work that have not finished, and whether
it was released. -/
structure Pool where
  size : Int
  tasks : List Task
  closed : Bool
  deriving DecidableEq, Repr

/-- Capacity of `done = make(chan struct{}, 1)`. -/
def doneCap : Nat := 1

/-- The package-level variables; `done` is the number of values buffered in the
channel. -/
structure Globals where
  cli : Option Client
  done : Nat
  subscriptMsgPool : Option Pool
  deriving DecidableEq, Repr

/-- The state of the package when the program starts. -/
def Globals.initial : Globals := { cli := none, done := 0, subscriptMsgPool := none }

/-- How a call ends: it returns a value, it panics, or it is parked on a
channel operation.  Each carries the globals and the calls made so far. -/
inductive Outcome (α : Type)
  | returned (globals : Globals) (trace : List Effect) (value : α)
  | panicked (globals : Globals) (trace : List Effect)
  | blocked (globals : Globals) (trace : List Effect)
  deriving DecidableEq, Repr

/-- Globals a call leaves behind. -/
def Outcome.globals {α : Type} : Outcome α → Globals
  | .returned g _ _ => g
  | .panicked g _ => g
  | .blocked g _ => g

/-- Calls a call made on its collaborators. -/
def Outcome.trace {α : Type} : Outcome α → List Effect
  | .returned _ t _ => t
  | .panicked _ t => t
  | .blocked _ t => t

/-- Whether the call returned to its caller. -/
def Outcome.isReturned {α : Type} : Outcome α → Bool
  | .returned _ _ _ => true
  | _ => false

/-- Whether the call panicked. -/
def Outcome.isPanicked {α : Type} : Outcome α → Bool
  | .panicked _ _ => true
  | _ => false

/-- The pulsar client library: what its three factory calls answer. -/
structure Broker where
  NewClient : ClientOptions → Except Error Handle
  CreateProducer : ProducerOptions → Except Error Handle
  Subscribe : ConsumerOptions → Except Error Handle

/-! ## Init -/

/-- The size `Init` hands to `ants.NewPool` (lines 39-41). -/
def poolSizeArg (subscribePoolSize : Int) : Int :=
  if subscribePoolSize < 0 then 1024 else subscribePoolSize

/-- Embedding of `Init(option, subscribePoolSize)`.  `newPool` is what
`ants.NewPool(size, WithNonblocking(true), WithPreAlloc(true))` answers. -/
def Init (b : Broker) (newPool : Int → Except Error Pool) (option : ClientOptions)
    (subscribePoolSize : Int) (g : Globals) : Outcome (Option Error) :=
  match b.NewClient option with
  | .error err => .returned g [.NewClient option] (some err)
  | .ok client =>
    let g1 : Globals := { g with cli := some { Client := client, subList := [], prodList := [] } }
    let size := poolSizeArg subscribePoolSize
    match newPool size with
    | .error err => .returned g1 [.NewClient option, .NewPool size true true] (some err)
    | .ok pool =>
      .returned { g1 with subscriptMsgPool := some pool }
        [.NewClient option, .NewPool size true true] none

/-- Embedding of `GetClient()`. -/
def GetClient (g : Globals) : Option Client := g.cli

/-! ## NewProducer, NewConsumer -/

/-- The options literal of `NewProducer`. -/
def producerOptions (topic : String) (sendTimeout : Int) : ProducerOptions :=
  { Topic := topic
    SendTimeout := wrap64 (1000000000 * wrap64 sendTimeout)
    MaxPendingMessages := 1000000
    DisableBatching := false
    BatchingMaxMessages := 2000
    BatchingMaxSize := 1024 * 1024 }

/-- Embedding of `NewProducer(topic, sendTimeout)`; the value is the pair
`(prod, err)`. -/
def NewProducer (b : Broker) (topic : String) (sendTimeout : Int) (g : Globals) :
    Outcome (Option Producer × Option Error) :=
  match g.cli with
  | none => .panicked g []
  | some c =>
    let o := producerOptions topic sendTimeout
    match b.CreateProducer o with
    | .error err => .returned g [.CreateProducer o] (none, some err)
    | .ok srcProd =>
      let prod : Producer := { prod := some srcProd }
      .returned { g with cli := some { c with prodList := c.prodList ++ [some prod] } }
        [.CreateProducer o] (some prod, none)

/-- The options literal of `NewConsumer`; `uuid` is what `uuid.NewString()`
answers and `now` what `time.Now().Unix()` answers. -/
def consumerOptions (topic : String) (uuid : String) (now : Int) : ConsumerOptions :=
  { Topic := topic
    Type_ := .Shared
    SubscriptionName := topic ++ uuid
    RetryEnable := true
    AutoDiscoveryPeriod := now
    SubscriptionInitialPosition := .Earliest
    ReceiverQueueSize := 2000 }

/-- Embedding of `NewConsumer(topic)`; the value is the pair `(con, err)`. -/
def NewConsumer (b : Broker) (uuid : String) (now : Int) (topic : String) (g : Globals) :
    Outcome (Option Consumer × Option Error) :=
  match g.cli with
  | none => .panicked g []
  | some c =>
    let o := consumerOptions topic uuid now
    match b.Subscribe o with
    | .error err => .returned g [.Subscribe o] (none, some err)
    | .ok srcCon =>
      let con : Consumer := { consumer := some srcCon }
      .returned { g with cli := some { c with subList := c.subList ++ [some con] } }
        [.Subscribe o] (some con, none)

/-- Embedding of `GetSrcConsumer(con)`: `none` when `con` is nil (the
dereference panics). -/
def GetSrcConsumer (con : Option Consumer) : Option (Option Handle) :=
  con.map (·.consumer)

/-! ## Closed -/

/-- The first loop of `Closed`: the calls made and whether the loop ran to its
end (`true`) or panicked on a nil pointer or nil interface (`false`). -/
def closeSubs : List (Option Consumer) → List Effect × Bool
  | [] => ([], true)
  | none :: _ => ([], false)
  | some { consumer := none } :: _ => ([], false)
  | some { consumer := some con } :: rest =>
    (Effect.ConsumerClose con :: (closeSubs rest).1, (closeSubs rest).2)

/-- The second loop of `Closed`, same convention as `closeSubs`. -/
def closeProds : List (Option Producer) → List Effect × Bool
  | [] => ([], true)
  | none :: _ => ([], false)
  | some { prod := none } :: _ => ([], false)
  | some { prod := some prod } :: rest =>
    (Effect.ProducerFlush prod :: Effect.ProducerClose prod :: (closeProds rest).1,
      (closeProds rest).2)

/-- The statement `done <- struct{}{}` with no receiver waiting: the number of
buffered values afterwards, or `none` when the buffer is full and the send
parks the goroutine. -/
def sendDone (done : Nat) : Option Nat :=
  if done < doneCap then some (done + 1) else none

/-- Embedding of `Closed()` run with no goroutine receiving from `done`. -/
def Closed (g : Globals) : Outcome Unit :=
  match g.cli with
  | none => .panicked g []
  | some c =>
    match closeSubs c.subList with
    | (t1, false) => .panicked g t1
    | (t1, true) =>
      match closeProds c.prodList with
      | (t2, false) => .panicked g (t1 ++ t2)
      | (t2, true) =>
        match sendDone g.done with
        | none => .blocked g (t1 ++ t2)
        | some d =>
          .returned { g with done := d } (t1 ++ t2 ++ [.DoneSend, .ClientClose c.Client]) ()

/-! ## The worker pool and the dispatch loop of SubscribeMsg -/

/-- Error text of `ants.ErrPoolClosed`. -/
def ErrPoolClosed : Error := "this pool has been closed"

/-- Error text of `ants.ErrPoolOverload`. -/
def ErrPoolOverload : Error := "too many goroutines blocked on submit or Nonblocking is set"

/-- Modelled from the spec: `(*ants.Pool).Submit` belongs to the third-party
pool library, whose source is not part of the package.  The pool is built
non-blocking, so a submission is answered at once: refused with an error when
the pool was released or all its slots are taken, accepted otherwise; a refused
unit of work is not kept and never runs. -/
def Pool.Submit (p : Pool) (task : Task) : Pool × Option Error :=
  if p.closed then (p, some ErrPoolClosed)
  else if p.size ≤ (p.tasks.length : Int) then (p, some ErrPoolOverload)
  else ({ p with tasks := p.tasks ++ [task] }, none)

/-- Modelled from the spec: a worker of the third-party pool runs the accepted
unit of work at position `i` once, to its end, and frees the slot; the result
is the calls the unit made and the pool afterwards (`none` when there is no
such unit). -/
def Pool.work (p : Pool) (i : Nat) : Option (List Effect × Pool) :=
  match p.tasks.get? i with
  | none => none
  | some task => some (task, { p with tasks := p.tasks.eraseIdx i })

/-- The closure `func() { callBack(msg, nil); msg.AckID(msg.ID()) }` of
lines 123-126. -/
def dispatchTask (msg : Message) : Task :=
  [.CallBack (some msg) none, .AckID msg.ID]

/-- Delivery channel of one consumer, `srcCon.Chan()`: the messages buffered in
it and whether it was closed. -/
structure Chan where
  buf : List Message
  closed : Bool
  deriving DecidableEq, Repr

/-- Everything the dispatch loop of one `SubscribeMsg` call can see: the
package globals, the channel of its consumer, and whether `ctx.Done()` is
closed. -/
structure World where
  globals : Globals
  chan : Chan
  ctxDone : Bool
  deriving DecidableEq, Repr

/-- The three communication clauses of the `select` of lines 118-134. -/
inductive Case
  | msg
  | ctx
  | done
  deriving DecidableEq, Repr

/-- Whether the channel operation of a clause can proceed: a receive proceeds
on a channel that holds a value or is closed. -/
def Case.ready (w : World) : Case → Bool
  | .msg => !w.chan.buf.isEmpty || w.chan.closed
  | .ctx => w.ctxDone
  | .done => decide (0 < w.globals.done)

/-- The clauses that can proceed, in source order. -/
def readyCases (w : World) : List Case :=
  [Case.msg, Case.ctx, Case.done].filter (Case.ready w)

/-- The clause `select` runs: one of the ready ones, which one being resolved
by `pick`; `none` when no clause is ready and the goroutine is parked. -/
def choose (pick : Nat) (w : World) : Option Case :=
  (readyCases w).get? (pick % (readyCases w).length)

/-- How a statement list ends. -/
inductive Ctl
  | normal
  | brk
  | cont
  | panic
  deriving DecidableEq, Repr

/-- State after a statement: the world, the calls made, how it ended. -/
structure Exec where
  world : World
  trace : List Effect
  ctl : Ctl
  deriving DecidableEq, Repr

/-- The statement list of a clause, run after its channel operation. -/
def caseBody (w : World) : Case → Exec
  | .msg =>
    match w.chan.buf with
    | [] => { world := w, trace := [], ctl := .cont }
    | msg :: rest =>
      let w1 : World := { w with chan := { w.chan with buf := rest } }
      match w.globals.subscriptMsgPool with
      | none => { world := w1, trace := [], ctl := .panic }
      | some p =>
        match p.Submit (dispatchTask msg) with
        | (p1, some err) =>
          { world := { w1 with globals := { w1.globals with subscriptMsgPool := some p1 } }
            trace := [.CallBack none (some err)]
            ctl := .normal }
        | (p1, none) =>
          { world := { w1 with globals := { w1.globals with subscriptMsgPool := some p1 } }
            trace := []
            ctl := .normal }
  | .ctx => { world := w, trace := [], ctl := .brk }
  | .done =>
    { world := { w with globals := { w.globals with done := w.globals.done - 1 } }
      trace := []
      ctl := .brk }

/-- The `select` statement with clause `c` chosen.  A `break` in a clause ends
the `select` statement itself (the innermost enclosing statement), so the
`select` ends normally. -/
def selectStmt (c : Case) (w : World) : Exec :=
  match caseBody w c with
  | { world := w1, trace := t, ctl := .brk } => { world := w1, trace := t, ctl := .normal }
  | e => e

/-- Where a `SubscribeMsg` call stands. -/
inductive Status
  | inLoop
  | returned
  | panicked
  deriving DecidableEq, Repr

/-- A `SubscribeMsg` call in progress: the world, all calls made so far (by the
call itself and by the pool workers), where the call stands, and how many times
the `select` statement ran. -/
structure Loop where
  world : World
  trace : List Effect
  status : Status
  iterations : Nat
  deriving DecidableEq, Repr

/-- One round of `for { select { ... } }`.  The loop is left only when its body
ends in a `break` that reaches the `for`; the body is the `select` statement.
Nothing happens when no clause is ready. -/
def forBody (srcCon : Option Handle) (pick : Nat) (l : Loop) : Loop :=
  match l.status with
  | .returned => l
  | .panicked => l
  | .inLoop =>
    match srcCon with
    | none => { l with status := .panicked }
    | some _ =>
      match choose pick l.world with
      | none => l
      | some c =>
        let e := selectStmt c l.world
        { world := e.world
          trace := l.trace ++ e.trace
          status :=
            match e.ctl with
            | .normal => .inLoop
            | .cont => .inLoop
            | .brk => .returned
            | .panic => .panicked
          iterations := l.iterations + 1 }

/-- What can happen next around a dispatch loop. -/
inductive Step
  | iterate (pick : Nat)
  | deliver (m : Message)
  | closeChan
  | cancel
  | shutdown
  | work (i : Nat)
  deriving DecidableEq, Repr

/-- One step: the loop goes round once (`iterate`), the broker delivers a
message or closes the channel, the caller cancels `ctx`, another goroutine runs
the send on `done` of `Closed`, or a pool worker runs an accepted unit of
work. -/
def step (srcCon : Option Handle) (l : Loop) : Step → Loop
  | .iterate pick => forBody srcCon pick l
  | .deliver m =>
    if l.world.chan.closed then l
    else { l with world := { l.world with chan := { l.world.chan with buf := l.world.chan.buf ++ [m] } } }
  | .closeChan => { l with world := { l.world with chan := { l.world.chan with closed := true } } }
  | .cancel => { l with world := { l.world with ctxDone := true } }
  | .shutdown =>
    match sendDone l.world.globals.done with
    | none => l
    | some d => { l with world := { l.world with globals := { l.world.globals with done := d } } }
  | .work i =>
    match l.world.globals.subscriptMsgPool with
    | none => l
    | some p =>
      match p.work i with
      | none => l
      | some (t, p1) =>
        { l with
          world := { l.world with globals := { l.world.globals with subscriptMsgPool := some p1 } }
          trace := l.trace ++ t }

/-- A run of steps. -/
def run (srcCon : Option Handle) (l : Loop) (steps : List Step) : Loop :=
  steps.foldl (step srcCon) l

/-- Embedding of `SubscribeMsg(ctx, topic, callBack)` followed along `steps`:
`chan` is the channel of the consumer the call creates and `ctxDone` whether
`ctx` is already cancelled when the call starts.  `NewConsumer` performs no
channel operation, so its `blocked` branch is never taken; it is there for the
match to be complete. -/
def SubscribeMsg (b : Broker) (uuid : String) (now : Int) (topic : String)
    (chan : Chan) (ctxDone : Bool) (steps : List Step) (g : Globals) : Loop :=
  match NewConsumer b uuid now topic g with
  | .panicked g1 t =>
    { world := { globals := g1, chan := chan, ctxDone := ctxDone }
      trace := t, status := .panicked, iterations := 0 }
  | .blocked g1 t =>
    { world := { globals := g1, chan := chan, ctxDone := ctxDone }
      trace := t, status := .inLoop, iterations := 0 }
  | .returned g1 t (_, some err) =>
    { world := { globals := g1, chan := chan, ctxDone := ctxDone }
      trace := t ++ [.CallBack none (some err)], status := .returned, iterations := 0 }
  | .returned g1 t (none, none) =>
    { world := { globals := g1, chan := chan, ctxDone := ctxDone }
      trace := t, status := .panicked, iterations := 0 }
  | .returned g1 t (some con, none) =>
    run con.consumer
      { world := { globals := g1, chan := chan, ctxDone := ctxDone }
        trace := t, status := .inLoop, iterations := 0 }
      steps

/-! ## Concrete collaborators used to evaluate the embedding -/

/-- A broker whose three factory calls succeed, with handles 1, 2 and 3. -/
def okBroker : Broker :=
  { NewClient := fun _ => .ok 1
    CreateProducer := fun _ => .ok 2
    Subscribe := fun _ => .ok 3 }

/-- A broker that connects but refuses to create producers and consumers. -/
def refusingBroker : Broker :=
  { NewClient := fun _ => .ok 1
    CreateProducer := fun _ => .error "producer refused"
    Subscribe := fun _ => .error "subscribe refused" }

/-- A pool constructor that builds an idle pool of the size it is given. -/
def mkPool (size : Int) : Except Error Pool :=
  .ok { size := size, tasks := [], closed := false }

/-- A pool constructor that always fails. -/
def noPool (_ : Int) : Except Error Pool :=
  .error "invalid size for pool"

/-- Some client options. -/
def someOptions : ClientOptions := { URL := "pulsar://localhost:6650" }

/-- The globals after `Init(someOptions, 4)` on the initial state. -/
def readyGlobals : Globals :=
  (Init okBroker mkPool someOptions 4 Globals.initial).globals

/-- A message with identifier 7. -/
def m7 : Message := { ID := 7, Payload := [104, 105] }

/-- A pool of one slot, taken by the unit of work for an earlier message. -/
def busyPool : Pool :=
  { size := 1, tasks := [dispatchTask { ID := 6, Payload := [] }], closed := false }

/-- An idle pool of four slots. -/
def idlePool : Pool := { size := 4, tasks := [], closed := false }

/-- A dispatch loop in its `for` with message 7 on its channel, no
cancellation, no shutdown signal, and the given pool. -/
def loopWith (pool : Pool) : Loop :=
  { world :=
      { globals := { readyGlobals with subscriptMsgPool := some pool }
        chan := { buf := [m7], closed := false }
        ctxDone := false }
    trace := []
    status := .inLoop
    iterations := 0 }

/-- Whether every entry of both registries is a non-nil pointer to a wrapper
whose handle is non-nil. -/
def fullyInitialised (c : Client) : Bool :=
  c.subList.all (fun e => match e with
    | some { consumer := some _ } => true
    | _ => false) &&
  c.prodList.all (fun e => match e with
    | some { prod := some _ } => true
    | _ => false)

/-- Whether the registries reachable through `cli` have no nil entry (there
are none to reach while `cli` is nil). -/
def registriesInitialised (g : Globals) : Bool :=
  match g.cli with
  | none => true
  | some c => fullyInitialised c

/-! ## Init -/

/-- A negative size is replaced by 1024. -/
theorem poolSizeArg_of_neg (n : Int) (h : n < 0) : poolSizeArg n = 1024 := by
  simp [poolSizeArg, h]

/-- A size that is not negative is handed on as it is. -/
theorem poolSizeArg_of_nonneg (n : Int) (h : 0 ≤ n) : poolSizeArg n = n := by
  simp [poolSizeArg, not_lt.mpr h]

/-- Claim C4, evaluated on the code at `Init(opts, 0)`: the guard is
`subscribePoolSize < 0`, so zero is not replaced.  The pool constructor is
called with size 0 and never with size 1024, whatever the broker and the pool
constructor answer. -/
theorem Init_zero_pool_size :
    poolSizeArg 0 = 0 ∧
    Init okBroker mkPool someOptions 0 Globals.initial =
      .returned
        { cli := some { Client := 1, prodList := [], subList := [] }
          done := 0
          subscriptMsgPool := some { size := 0, tasks := [], closed := false } }
        [.NewClient someOptions, .NewPool 0 true true] none ∧
    ∀ (b : Broker) (newPool : Int → Except Error Pool) (option : ClientOptions) (g : Globals),
      Effect.NewPool 1024 true true ∉ (Init b newPool option 0 g).trace := by
  refine ⟨by decide, by decide, ?_⟩
  intro b newPool option g
  have h0 : poolSizeArg 0 = 0 := by decide
  unfold Init
  rw [h0]
  cases b.NewClient option with
  | error err => simp [Outcome.trace]
  | ok client =>
    cases hp : newPool 0 with
    | error err => simp [Outcome.trace, hp]
    | ok pool => simp [Outcome.trace, hp]

/-- Claim C5 as stated fails: on the initial globals, with a session that is
established and a pool that cannot be constructed, `Init` returns the error but
the global handle `cli` is no longer what it was. -/
theorem Init_pool_failure_changes_cli :
    (Init okBroker noPool someOptions 4 Globals.initial).isReturned = true ∧
    (Init okBroker noPool someOptions 4 Globals.initial).globals ≠ Globals.initial ∧
    Globals.initial.cli = none ∧
    (Init okBroker noPool someOptions 4 Globals.initial).globals.cli =
      some { Client := 1, prodList := [], subList := [] } := by
  decide

/-- Claim C5, amended: when the session is established and the pool cannot be
constructed, `Init` returns the error; the global pool and the `done` channel
are what they were, and `cli` is a fresh handle that holds the new session and
two empty registries. -/
theorem Init_pool_failure (b : Broker) (newPool : Int → Except Error Pool)
    (option : ClientOptions) (subscribePoolSize : Int) (g : Globals)
    (client : Handle) (err : Error)
    (hclient : b.NewClient option = .ok client)
    (hpool : newPool (poolSizeArg subscribePoolSize) = .error err) :
    Init b newPool option subscribePoolSize g =
      .returned { g with cli := some { Client := client, prodList := [], subList := [] } }
        [.NewClient option, .NewPool (poolSizeArg subscribePoolSize) true true] (some err) ∧
    (Init b newPool option subscribePoolSize g).globals.subscriptMsgPool = g.subscriptMsgPool ∧
    (Init b newPool option subscribePoolSize g).globals.done = g.done := by
  have h : Init b newPool option subscribePoolSize g =
      .returned { g with cli := some { Client := client, prodList := [], subList := [] } }
        [.NewClient option, .NewPool (poolSizeArg subscribePoolSize) true true] (some err) := by
    unfold Init
    rw [hclient]
    simp only [hpool]
  refine ⟨h, ?_, ?_⟩ <;> rw [h] <;> rfl

/-- Witness of `Init_pool_failure` on the initial globals. -/
theorem Init_pool_failure_witness :
    Init okBroker noPool someOptions 4 Globals.initial =
      .returned
        { Globals.initial with cli := some { Client := 1, prodList := [], subList := [] } }
        [.NewClient someOptions, .NewPool (poolSizeArg 4) true true]
        (some "invalid size for pool") ∧
    (Init okBroker noPool someOptions 4 Globals.initial).globals.subscriptMsgPool =
      Globals.initial.subscriptMsgPool ∧
    (Init okBroker noPool someOptions 4 Globals.initial).globals.done = Globals.initial.done :=
  Init_pool_failure okBroker noPool someOptions 4 Globals.initial 1 "invalid size for pool"
    rfl rfl

/-- When the session cannot be established, `Init` leaves the globals as they
were. -/
theorem Init_session_failure (b : Broker) (newPool : Int → Except Error Pool)
    (option : ClientOptions) (subscribePoolSize : Int) (g : Globals) (err : Error)
    (hclient : b.NewClient option = .error err) :
    Init b newPool option subscribePoolSize g = .returned g [.NewClient option] (some err) := by
  unfold Init
  rw [hclient]

/-! ## NewProducer, NewConsumer -/

/-- Claim C8: with a client handle in place, a successful `NewProducer`
(resp. `NewConsumer`) leaves the producer (resp. consumer) registry equal to
the old one with the returned handle appended at the end and the other registry
as it was; a failed one returns the error with a nil handle and leaves the
globals, hence both registries, as they were. -/
theorem NewProducer_NewConsumer_registry (b : Broker) (g : Globals) (c : Client)
    (topic uuid : String) (sendTimeout now : Int) (hcli : g.cli = some c) :
    (∀ srcProd, b.CreateProducer (producerOptions topic sendTimeout) = .ok srcProd →
      NewProducer b topic sendTimeout g =
        .returned
          { g with cli := some { c with prodList := c.prodList ++ [some { prod := some srcProd }] } }
          [.CreateProducer (producerOptions topic sendTimeout)]
          (some { prod := some srcProd }, none)) ∧
    (∀ err, b.CreateProducer (producerOptions topic sendTimeout) = .error err →
      NewProducer b topic sendTimeout g =
        .returned g [.CreateProducer (producerOptions topic sendTimeout)] (none, some err)) ∧
    (∀ srcCon, b.Subscribe (consumerOptions topic uuid now) = .ok srcCon →
      NewConsumer b uuid now topic g =
        .returned
          { g with cli := some { c with subList := c.subList ++ [some { consumer := some srcCon }] } }
          [.Subscribe (consumerOptions topic uuid now)]
          (some { consumer := some srcCon }, none)) ∧
    (∀ err, b.Subscribe (consumerOptions topic uuid now) = .error err →
      NewConsumer b uuid now topic g =
        .returned g [.Subscribe (consumerOptions topic uuid now)] (none, some err)) := by
  refine ⟨?_, ?_, ?_, ?_⟩
  · intro srcProd h
    unfold NewProducer
    rw [hcli]
    simp only [h]
  · intro err h
    unfold NewProducer
    rw [hcli]
    simp only [h]
  · intro srcCon h
    unfold NewConsumer
    rw [hcli]
    simp only [h]
  · intro err h
    unfold NewConsumer
    rw [hcli]
    simp only [h]

/-- Witness of `NewProducer_NewConsumer_registry`: both calls on the globals
left by `Init`, once with a broker that accepts and once with one that
refuses. -/
theorem NewProducer_NewConsumer_registry_witness :
    readyGlobals.cli = some { Client := 1, prodList := [], subList := [] } ∧
    NewProducer okBroker "orders" 3 readyGlobals =
      .returned
        { readyGlobals with
          cli := some { Client := 1, prodList := [] ++ [some { prod := some 2 }], subList := [] } }
        [.CreateProducer (producerOptions "orders" 3)] (some { prod := some 2 }, none) ∧
    NewConsumer refusingBroker "-7f1c" 1700000000 "orders" readyGlobals =
      .returned readyGlobals [.Subscribe (consumerOptions "orders" "-7f1c" 1700000000)]
        (none, some "subscribe refused") :=
  ⟨rfl,
    (NewProducer_NewConsumer_registry okBroker readyGlobals
      { Client := 1, prodList := [], subList := [] } "orders" "-7f1c" 3 1700000000 rfl).1 2 rfl,
    (NewProducer_NewConsumer_registry refusingBroker readyGlobals
      { Client := 1, prodList := [], subList := [] } "orders" "-7f1c" 3 1700000000
      rfl).2.2.2 "subscribe refused" rfl⟩

/-! ## Closed -/

/-- The first loop of `Closed` on a registry without nil entries closes the
consumers in registration order and runs to its end. -/
theorem closeSubs_map (cs : List Handle) :
    closeSubs (cs.map fun h => some { consumer := some h }) =
      (cs.map Effect.ConsumerClose, true) := by
  induction cs with
  | nil => rfl
  | cons h rest ih => simp [closeSubs, ih]

/-- The second loop of `Closed` on a registry without nil entries flushes and
then closes the producers in registration order and runs to its end. -/
theorem closeProds_map (ps : List Handle) :
    closeProds (ps.map fun h => some { prod := some h }) =
      (ps.flatMap fun h => [Effect.ProducerFlush h, Effect.ProducerClose h], true) := by
  induction ps with
  | nil => rfl
  | cons h rest ih => simp [closeProds, ih]

/-- Claim C6 as stated fails: it holds only while the `done` slot is empty.
After `Init`, one `NewConsumer`, one `NewProducer` and a first `Closed`, the
value sent by that `Closed` is still in the slot; a second `Closed` closes the
consumer, flushes and closes the producer and is then parked on the send: it
performs neither the send nor the close of the connection. -/
theorem Closed_parks_on_pending_signal :
    (Closed
      (NewProducer okBroker "orders" 3
        (NewConsumer okBroker "-7f1c" 1700000000 "orders" readyGlobals).globals).globals).globals =
      { cli := some
          { Client := 1
            prodList := [some { prod := some 2 }]
            subList := [some { consumer := some 3 }] }
        done := 1
        subscriptMsgPool := some idlePool } ∧
    Closed
        { cli := some
            { Client := 1
              prodList := [some { prod := some 2 }]
              subList := [some { consumer := some 3 }] }
          done := 1
          subscriptMsgPool := some idlePool } =
      .blocked
        { cli := some
            { Client := 1
              prodList := [some { prod := some 2 }]
              subList := [some { consumer := some 3 }] }
          done := 1
          subscriptMsgPool := some idlePool }
        [.ConsumerClose 3, .ProducerFlush 2, .ProducerClose 2] := by
  decide

/-- Claim C6, amended: for consumers `cs` and producers `ps` in registration
order and any content `d` of the `done` slot, `Closed` first closes each
consumer, then flushes and closes each producer.  With the slot empty it then
sends on `done`, closes the connection and returns, the slot now holding one
value.  With a value pending in the slot it is parked on the send after the
closes: no send, no close of the connection. -/
theorem Closed_trace (client : Handle) (cs ps : List Handle) (pool : Option Pool) (d : Nat) :
    Closed
        { cli := some
            { Client := client
              prodList := ps.map fun h => some { prod := some h }
              subList := cs.map fun h => some { consumer := some h } }
          done := d
          subscriptMsgPool := pool } =
      if d = 0 then
        .returned
          { cli := some
              { Client := client
                prodList := ps.map fun h => some { prod := some h }
                subList := cs.map fun h => some { consumer := some h } }
            done := 1
            subscriptMsgPool := pool }
          (cs.map Effect.ConsumerClose ++
            (ps.flatMap fun h => [Effect.ProducerFlush h, Effect.ProducerClose h]) ++
            [Effect.DoneSend, Effect.ClientClose client])
          ()
      else
        .blocked
          { cli := some
              { Client := client
                prodList := ps.map fun h => some { prod := some h }
                subList := cs.map fun h => some { consumer := some h } }
            done := d
            subscriptMsgPool := pool }
          (cs.map Effect.ConsumerClose ++
            (ps.flatMap fun h => [Effect.ProducerFlush h, Effect.ProducerClose h])) := by
  by_cases hd : d = 0
  · subst hd
    simp [Closed, closeSubs_map, closeProds_map, sendDone, doneCap]
  · simp [Closed, closeSubs_map, closeProds_map, sendDone, doneCap, hd]

/-- Claim C7 as stated fails: from the empty slot, the second of two signal
steps in sequence does not complete; and a second `Closed` is parked on the
send, before the connection is closed. -/
theorem sendDone_twice_blocks :
    (sendDone 0).bind sendDone = none ∧
    (Closed readyGlobals).isReturned = true ∧
    Closed (Closed readyGlobals).globals =
      .blocked { readyGlobals with done := 1 } [] := by
  decide

/-- Claim C7, amended: the send on `done` is a plain channel send on a buffer
of one.  From the empty slot the first signal step completes and fills the
slot; a signal step on the full slot does not complete (it is parked, it does
not panic), so `Closed` does not return there; after a dispatch loop has taken
the pending value through its `done` clause the slot is empty and a signal step
completes again. -/
theorem sendDone_single_slot :
    sendDone 0 = some 1 ∧
    sendDone 1 = none ∧
    (∀ g : Globals, g.done = 1 → (Closed g).isReturned = false) ∧
    (∀ w : World, w.globals.done = 1 →
      sendDone (selectStmt Case.done w).world.globals.done = some 1) := by
  refine ⟨by decide, by decide, ?_, ?_⟩
  · intro g hg
    unfold Closed
    cases g.cli with
    | none => rfl
    | some c =>
      rcases hs : closeSubs c.subList with ⟨t1, _ | _⟩ <;>
        rcases hp : closeProds c.prodList with ⟨t2, _ | _⟩ <;>
        simp [hs, hp, hg, sendDone, doneCap, Outcome.isReturned]
  · intro w hw
    simp [selectStmt, caseBody, hw, sendDone, doneCap]

/-- The first loop of `Closed` runs to its end exactly when no entry is nil. -/
theorem closeSubs_snd (l : List (Option Consumer)) :
    (closeSubs l).2 = l.all (fun e => match e with
      | some { consumer := some _ } => true
      | _ => false) := by
  induction l with
  | nil => rfl
  | cons e rest ih =>
    rcases e with _ | ⟨_ | con⟩
    · rfl
    · rfl
    · simp [closeSubs, ih]

/-- The second loop of `Closed` runs to its end exactly when no entry is nil. -/
theorem closeProds_snd (l : List (Option Producer)) :
    (closeProds l).2 = l.all (fun e => match e with
      | some { prod := some _ } => true
      | _ => false) := by
  induction l with
  | nil => rfl
  | cons e rest ih =>
    rcases e with _ | ⟨_ | prod⟩
    · rfl
    · rfl
    · simp [closeProds, ih]

/-- When the first loop of `Closed` runs to its end it has closed every
registered consumer. -/
theorem closeSubs_mem (l : List (Option Consumer)) (h : (closeSubs l).2 = true)
    (con : Handle) (hmem : some { consumer := some con } ∈ l) :
    Effect.ConsumerClose con ∈ (closeSubs l).1 := by
  induction l with
  | nil => simp at hmem
  | cons e rest ih =>
    rcases e with _ | ⟨_ | con0⟩
    · simp [closeSubs] at h
    · simp [closeSubs] at h
    · simp only [closeSubs] at h ⊢
      rcases List.mem_cons.mp hmem with heq | hrest
      · have : con = con0 := by simpa using heq
        simp [this]
      · exact List.mem_cons_of_mem _ (ih h hrest)

/-- When the second loop of `Closed` runs to its end it has flushed and closed
every registered producer. -/
theorem closeProds_mem (l : List (Option Producer)) (h : (closeProds l).2 = true)
    (prod : Handle) (hmem : some { prod := some prod } ∈ l) :
    Effect.ProducerFlush prod ∈ (closeProds l).1 ∧
      Effect.ProducerClose prod ∈ (closeProds l).1 := by
  induction l with
  | nil => simp at hmem
  | cons e rest ih =>
    rcases e with _ | ⟨_ | prod0⟩
    · simp [closeProds] at h
    · simp [closeProds] at h
    · simp only [closeProds] at h ⊢
      rcases List.mem_cons.mp hmem with heq | hrest
      · have : prod = prod0 := by simpa using heq
        simp [this]
      · have := ih h hrest
        exact ⟨List.mem_cons_of_mem _ (List.mem_cons_of_mem _ this.1),
          List.mem_cons_of_mem _ (List.mem_cons_of_mem _ this.2)⟩

/-- The loops of `Closed` never send on `done` nor close the connection. -/
theorem closeSubs_no_final (l : List (Option Consumer)) (client : Handle) :
    Effect.ClientClose client ∉ (closeSubs l).1 ∧ Effect.DoneSend ∉ (closeSubs l).1 := by
  induction l with
  | nil => simp [closeSubs]
  | cons e rest ih =>
    rcases e with _ | ⟨_ | con⟩
    · simp [closeSubs]
    · simp [closeSubs]
    · simp [closeSubs, ih]

/-- The loops of `Closed` never send on `done` nor close the connection. -/
theorem closeProds_no_final (l : List (Option Producer)) (client : Handle) :
    Effect.ClientClose client ∉ (closeProds l).1 ∧ Effect.DoneSend ∉ (closeProds l).1 := by
  induction l with
  | nil => simp [closeProds]
  | cons e rest ih =>
    rcases e with _ | ⟨_ | prod⟩
    · simp [closeProds]
    · simp [closeProds]
    · simp [closeProds, ih]

/-- Claim C9 as stated fails: with a nil pointer in the consumer registry
`Closed` panics at that entry: the consumer registered after it, the producer
and the connection are never closed. -/
theorem Closed_panics_on_nil_entry :
    Closed
        { cli := some
            { Client := 1
              prodList := [some { prod := some 2 }]
              subList := [some { consumer := some 3 }, none, some { consumer := some 5 }] }
          done := 0
          subscriptMsgPool := none } =
      .panicked
        { cli := some
            { Client := 1
              prodList := [some { prod := some 2 }]
              subList := [some { consumer := some 3 }, none, some { consumer := some 5 }] }
          done := 0
          subscriptMsgPool := none }
        [.ConsumerClose 3] := by
  decide

/-- With the `done` slot empty, `Closed` panics exactly when some registry entry
is nil.  When no entry is nil it returns, having closed every consumer, flushed
and closed every producer and closed the connection; when some entry is nil it
neither sends on `done` nor closes the connection. -/
theorem Closed_panics_iff (c : Client) (pool : Option Pool) :
    (Closed { cli := some c, done := 0, subscriptMsgPool := pool }).isPanicked =
      !fullyInitialised c ∧
    (fullyInitialised c = true →
      (Closed { cli := some c, done := 0, subscriptMsgPool := pool }).isReturned = true ∧
      (∀ con, some { consumer := some con } ∈ c.subList →
        Effect.ConsumerClose con ∈
          (Closed { cli := some c, done := 0, subscriptMsgPool := pool }).trace) ∧
      (∀ prod, some { prod := some prod } ∈ c.prodList →
        Effect.ProducerFlush prod ∈
          (Closed { cli := some c, done := 0, subscriptMsgPool := pool }).trace ∧
        Effect.ProducerClose prod ∈
          (Closed { cli := some c, done := 0, subscriptMsgPool := pool }).trace) ∧
      Effect.ClientClose c.Client ∈
        (Closed { cli := some c, done := 0, subscriptMsgPool := pool }).trace) ∧
    (fullyInitialised c = false →
      Effect.DoneSend ∉ (Closed { cli := some c, done := 0, subscriptMsgPool := pool }).trace ∧
      Effect.ClientClose c.Client ∉
        (Closed { cli := some c, done := 0, subscriptMsgPool := pool }).trace) := by
  have hs2 := closeSubs_snd c.subList
  have hp2 := closeProds_snd c.prodList
  have hsm := closeSubs_mem c.subList
  have hpm := closeProds_mem c.prodList
  have hsn := closeSubs_no_final c.subList c.Client
  have hpn := closeProds_no_final c.prodList c.Client
  have hfull : fullyInitialised c = ((closeSubs c.subList).2 && (closeProds c.prodList).2) := by
    rw [hs2, hp2]; rfl
  rcases hs : closeSubs c.subList with ⟨t1, b1⟩
  rcases hp : closeProds c.prodList with ⟨t2, b2⟩
  rw [hs] at hsm hsn hfull
  rw [hp] at hpm hpn hfull
  simp only at hsm hpm hsn hpn hfull
  cases b1 <;> cases b2 <;>
    (simp [Closed, hs, hp, hfull, sendDone, doneCap, Outcome.isPanicked, Outcome.isReturned,
      Outcome.trace, hsn, hpn]
     try constructor
     all_goals (intros; simp_all))

/-- The first loop of `Closed` stops at the first nil entry: it has closed the
consumers registered before it, and nothing after it. -/
theorem closeSubs_nil_entry (cs : List Handle) (e : Option Consumer)
    (rest : List (Option Consumer)) (he : ∀ h, e ≠ some { consumer := some h }) :
    closeSubs ((cs.map fun h => some { consumer := some h }) ++ e :: rest) =
      (cs.map Effect.ConsumerClose, false) := by
  induction cs with
  | nil =>
    rcases e with _ | ⟨_ | h⟩
    · rfl
    · rfl
    · exact absurd rfl (he h)
  | cons h tl ih => simp [closeSubs, ih]

/-- The second loop of `Closed` stops at the first nil entry: it has flushed
and closed the producers registered before it, and nothing after it. -/
theorem closeProds_nil_entry (ps : List Handle) (e : Option Producer)
    (rest : List (Option Producer)) (he : ∀ h, e ≠ some { prod := some h }) :
    closeProds ((ps.map fun h => some { prod := some h }) ++ e :: rest) =
      (ps.flatMap fun h => [Effect.ProducerFlush h, Effect.ProducerClose h], false) := by
  induction ps with
  | nil =>
    rcases e with _ | ⟨_ | h⟩
    · rfl
    · rfl
    · exact absurd rfl (he h)
  | cons h tl ih => simp [closeProds, ih]

/-- The package never registers a nil entry: the registries are without nil
entries when the program starts, and `Init`, `NewProducer`, `NewConsumer` and
`Closed` keep them so. -/
theorem registries_stay_initialised (b : Broker) (newPool : Int → Except Error Pool)
    (option : ClientOptions) (subscribePoolSize sendTimeout now : Int) (topic uuid : String)
    (g : Globals) (hg : registriesInitialised g = true) :
    registriesInitialised Globals.initial = true ∧
    registriesInitialised (Init b newPool option subscribePoolSize g).globals = true ∧
    registriesInitialised (NewProducer b topic sendTimeout g).globals = true ∧
    registriesInitialised (NewConsumer b uuid now topic g).globals = true ∧
    registriesInitialised (Closed g).globals = true := by
  refine ⟨rfl, ?_, ?_, ?_, ?_⟩
  · unfold Init
    cases b.NewClient option with
    | error err => exact hg
    | ok client =>
      cases hp : newPool (poolSizeArg subscribePoolSize) with
      | error err => simp [hp, Outcome.globals, registriesInitialised, fullyInitialised]
      | ok pool => simp [hp, Outcome.globals, registriesInitialised, fullyInitialised]
  · unfold NewProducer
    cases hc : g.cli with
    | none => simpa [Outcome.globals] using hg
    | some c =>
      have hc2 : fullyInitialised c = true := by
        simpa [registriesInitialised, hc] using hg
      cases hb : b.CreateProducer (producerOptions topic sendTimeout) with
      | error err => simpa [hb, Outcome.globals] using hg
      | ok srcProd =>
        simp only [fullyInitialised, Bool.and_eq_true] at hc2
        simp [hb, Outcome.globals, registriesInitialised, fullyInitialised, List.all_append, hc2]
  · unfold NewConsumer
    cases hc : g.cli with
    | none => simpa [Outcome.globals] using hg
    | some c =>
      have hc2 : fullyInitialised c = true := by
        simpa [registriesInitialised, hc] using hg
      cases hb : b.Subscribe (consumerOptions topic uuid now) with
      | error err => simpa [hb, Outcome.globals] using hg
      | ok srcCon =>
        simp only [fullyInitialised, Bool.and_eq_true] at hc2
        simp [hb, Outcome.globals, registriesInitialised, fullyInitialised, List.all_append, hc2]
  · unfold Closed
    cases hc : g.cli with
    | none => simpa [Outcome.globals] using hg
    | some c =>
      have hc2 : fullyInitialised c = true := by
        simpa [registriesInitialised, hc] using hg
      rcases hs : closeSubs c.subList with ⟨t1, _ | _⟩ <;>
        rcases hp : closeProds c.prodList with ⟨t2, _ | _⟩ <;>
        cases hd : sendDone g.done <;>
        simp [hs, hp, hd, hc, Outcome.globals, registriesInitialised, hc2]

/-- Claim C9, amended: `Closed` has no nil check.  A nil entry (a nil pointer or
a wrapper around a nil handle) is not skipped: whatever is in the `done` slot,
`Closed` panics at the first nil entry, having closed exactly the consumers,
and flushed and closed exactly the producers, registered before it; the entries
after it are not touched, nothing is sent on `done` and the connection is not
closed.  On registries without nil entries `Closed`, entered with the slot
empty, returns after closing every consumer, flushing and closing every
producer and closing the connection; with the slot empty it panics exactly when
some entry is nil.  The package itself never registers a nil entry. -/
theorem Closed_nil_entries (client : Handle) (cs ps : List Handle) (pool : Option Pool)
    (d : Nat) :
    (∀ (e : Option Consumer) (rest : List (Option Consumer)) (prods : List (Option Producer)),
      (∀ h, e ≠ some { consumer := some h }) →
      Closed
          { cli := some
              { Client := client
                prodList := prods
                subList := (cs.map fun h => some { consumer := some h }) ++ e :: rest }
            done := d
            subscriptMsgPool := pool } =
        .panicked
          { cli := some
              { Client := client
                prodList := prods
                subList := (cs.map fun h => some { consumer := some h }) ++ e :: rest }
            done := d
            subscriptMsgPool := pool }
          (cs.map Effect.ConsumerClose)) ∧
    (∀ (e : Option Producer) (rest : List (Option Producer)),
      (∀ h, e ≠ some { prod := some h }) →
      Closed
          { cli := some
              { Client := client
                prodList := (ps.map fun h => some { prod := some h }) ++ e :: rest
                subList := cs.map fun h => some { consumer := some h } }
            done := d
            subscriptMsgPool := pool } =
        .panicked
          { cli := some
              { Client := client
                prodList := (ps.map fun h => some { prod := some h }) ++ e :: rest
                subList := cs.map fun h => some { consumer := some h } }
            done := d
            subscriptMsgPool := pool }
          (cs.map Effect.ConsumerClose ++
            (ps.flatMap fun h => [Effect.ProducerFlush h, Effect.ProducerClose h]))) ∧
    Closed
        { cli := some
            { Client := client
              prodList := ps.map fun h => some { prod := some h }
              subList := cs.map fun h => some { consumer := some h } }
          done := 0
          subscriptMsgPool := pool } =
      .returned
        { cli := some
            { Client := client
              prodList := ps.map fun h => some { prod := some h }
              subList := cs.map fun h => some { consumer := some h } }
          done := 1
          subscriptMsgPool := pool }
        (cs.map Effect.ConsumerClose ++
          (ps.flatMap fun h => [Effect.ProducerFlush h, Effect.ProducerClose h]) ++
          [Effect.DoneSend, Effect.ClientClose client])
        () ∧
    (∀ c : Client,
      (Closed { cli := some c, done := 0, subscriptMsgPool := pool }).isPanicked =
        !fullyInitialised c ∧
      (fullyInitialised c = true →
        (Closed { cli := some c, done := 0, subscriptMsgPool := pool }).isReturned = true ∧
        (∀ con, some { consumer := some con } ∈ c.subList →
          Effect.ConsumerClose con ∈
            (Closed { cli := some c, done := 0, subscriptMsgPool := pool }).trace) ∧
        (∀ prod, some { prod := some prod } ∈ c.prodList →
          Effect.ProducerFlush prod ∈
            (Closed { cli := some c, done := 0, subscriptMsgPool := pool }).trace ∧
          Effect.ProducerClose prod ∈
            (Closed { cli := some c, done := 0, subscriptMsgPool := pool }).trace) ∧
        Effect.ClientClose c.Client ∈
          (Closed { cli := some c, done := 0, subscriptMsgPool := pool }).trace) ∧
      (fullyInitialised c = false →
        Effect.DoneSend ∉
          (Closed { cli := some c, done := 0, subscriptMsgPool := pool }).trace ∧
        Effect.ClientClose c.Client ∉
          (Closed { cli := some c, done := 0, subscriptMsgPool := pool }).trace)) ∧
    (registriesInitialised Globals.initial = true ∧
      ∀ (b : Broker) (newPool : Int → Except Error Pool) (option : ClientOptions)
        (subscribePoolSize sendTimeout now : Int) (topic uuid : String) (g : Globals),
        registriesInitialised g = true →
        registriesInitialised (Init b newPool option subscribePoolSize g).globals = true ∧
        registriesInitialised (NewProducer b topic sendTimeout g).globals = true ∧
        registriesInitialised (NewConsumer b uuid now topic g).globals = true ∧
        registriesInitialised (Closed g).globals = true) := by
  refine ⟨?_, ?_, ?_, ?_, rfl, ?_⟩
  · intro e rest prods he
    simp [Closed, closeSubs_nil_entry cs e rest he]
  · intro e rest he
    simp [Closed, closeSubs_map, closeProds_nil_entry ps e rest he]
  · simp [Closed, closeSubs_map, closeProds_map, sendDone, doneCap]
  · intro c
    exact Closed_panics_iff c pool
  · intro b newPool option subscribePoolSize sendTimeout now topic uuid g hg
    exact (registries_stay_initialised b newPool option subscribePoolSize sendTimeout now
      topic uuid g hg).2

/-- Witness of `Closed_nil_entries`: a wrapper around a nil handle sits between
two consumers; the first consumer is closed, then `Closed` panics. -/
theorem Closed_nil_entries_witness :
    Closed
        { cli := some
            { Client := 1
              prodList := [some { prod := some 2 }]
              subList :=
                ([3].map fun h => some { consumer := some h }) ++
                  some { consumer := none } :: [some { consumer := some 5 }] }
          done := 0
          subscriptMsgPool := none } =
      .panicked
        { cli := some
            { Client := 1
              prodList := [some { prod := some 2 }]
              subList :=
                ([3].map fun h => some { consumer := some h }) ++
                  some { consumer := none } :: [some { consumer := some 5 }] }
          done := 0
          subscriptMsgPool := none }
        ([3].map Effect.ConsumerClose) :=
  (Closed_nil_entries 1 [3] [] none 0).1 (some { consumer := none })
    [some { consumer := some 5 }] [some { prod := some 2 }] (by intro h; simp)

/-! ## The dispatch loop -/

/-- A refused submission leaves the pool as it was. -/
theorem Pool.Submit_rejected (p p1 : Pool) (task : Task) (err : Error)
    (h : p.Submit task = (p1, some err)) : p1 = p := by
  unfold Pool.Submit at h
  split_ifs at h <;> simp_all

/-- An accepted submission appends the unit of work to the pool. -/
theorem Pool.Submit_accepted (p p1 : Pool) (task : Task)
    (h : p.Submit task = (p1, none)) : p1 = { p with tasks := p.tasks ++ [task] } := by
  unfold Pool.Submit at h
  split_ifs at h <;> simp_all

/-- Claim C2: when the loop receives `msg` and the pool refuses the submission
with `err`, the round makes exactly one call, `callBack(nil, err)`; the pool is
what it was, so it holds no unit of work for `msg` that would call the callback
with it or acknowledge it; the message is off the channel and the loop is still
in its `for`, ready for the next round. -/
theorem forBody_submit_rejected (h : Handle) (pick : Nat) (l : Loop) (msg : Message)
    (rest : List Message) (p p1 : Pool) (err : Error)
    (hstatus : l.status = .inLoop)
    (hchoose : choose pick l.world = some Case.msg)
    (hbuf : l.world.chan.buf = msg :: rest)
    (hpool : l.world.globals.subscriptMsgPool = some p)
    (hrej : p.Submit (dispatchTask msg) = (p1, some err)) :
    p1 = p ∧
    forBody (some h) pick l =
      { world := { l.world with chan := { l.world.chan with buf := rest } }
        trace := l.trace ++ [.CallBack none (some err)]
        status := .inLoop
        iterations := l.iterations + 1 } := by
  have hp1 := Pool.Submit_rejected p p1 _ err hrej
  subst hp1
  refine ⟨rfl, ?_⟩
  rcases l with ⟨⟨⟨cli, done, gpool⟩, chan, ctxDone⟩, trace, status, iterations⟩
  simp only at hstatus hchoose hbuf hpool
  subst hstatus hpool
  simp [forBody, hchoose, selectStmt, caseBody, hbuf, hrej]

/-- Claim C3: when the loop receives `msg` and the pool accepts the submission,
the round itself makes no call (no `callBack(nil, err)`), the pool holds one
more unit of work, and a worker running that unit makes exactly the calls
`callBack(msg, nil)` and then `AckID(msg.ID())`, after which the unit is gone
from the pool. -/
theorem forBody_submit_accepted (h : Handle) (pick : Nat) (l : Loop) (msg : Message)
    (rest : List Message) (p p1 : Pool)
    (hstatus : l.status = .inLoop)
    (hchoose : choose pick l.world = some Case.msg)
    (hbuf : l.world.chan.buf = msg :: rest)
    (hpool : l.world.globals.subscriptMsgPool = some p)
    (hacc : p.Submit (dispatchTask msg) = (p1, none)) :
    p1.tasks = p.tasks ++ [[Effect.CallBack (some msg) none, Effect.AckID msg.ID]] ∧
    forBody (some h) pick l =
      { world :=
          { l.world with
            chan := { l.world.chan with buf := rest }
            globals := { l.world.globals with subscriptMsgPool := some p1 } }
        trace := l.trace
        status := .inLoop
        iterations := l.iterations + 1 } ∧
    step (some h) (forBody (some h) pick l) (.work p.tasks.length) =
      { world := { l.world with chan := { l.world.chan with buf := rest } }
        trace := l.trace ++ [.CallBack (some msg) none, .AckID msg.ID]
        status := .inLoop
        iterations := l.iterations + 1 } := by
  have hp1 := Pool.Submit_accepted p p1 _ hacc
  have hget : ∀ t : Task, (p.tasks ++ [t]).get? p.tasks.length = some t := by
    intro t
    simp
  have herase : ∀ t : Task, (p.tasks ++ [t]).eraseIdx p.tasks.length = p.tasks := by
    intro t
    rw [List.eraseIdx_append_of_length_le (le_refl _)]
    simp
  have hfor : forBody (some h) pick l =
      { world :=
          { l.world with
            chan := { l.world.chan with buf := rest }
            globals := { l.world.globals with subscriptMsgPool := some p1 } }
        trace := l.trace
        status := .inLoop
        iterations := l.iterations + 1 } := by
    rcases l with ⟨⟨⟨cli, done, gpool⟩, chan, ctxDone⟩, trace, status, iterations⟩
    simp only at hstatus hchoose hbuf hpool
    subst hstatus hpool
    simp [forBody, hchoose, selectStmt, caseBody, hbuf, hacc]
  refine ⟨by rw [hp1]; rfl, hfor, ?_⟩
  rw [hfor, hp1]
  rcases l with ⟨⟨⟨cli, done, gpool⟩, chan, ctxDone⟩, trace, status, iterations⟩
  simp only at hpool
  subst hpool
  rcases p with ⟨size, tasks, closed⟩
  simp only at hget herase
  simp [step, Pool.work, hget, herase, dispatchTask]

/-- Witness of `forBody_submit_rejected`: message 7 arrives while the only
slot of the pool is taken. -/
theorem forBody_submit_rejected_witness :
    busyPool = busyPool ∧
    forBody (some 3) 0 (loopWith busyPool) =
      { world :=
          { (loopWith busyPool).world with
            chan := { (loopWith busyPool).world.chan with buf := [] } }
        trace := (loopWith busyPool).trace ++ [.CallBack none (some ErrPoolOverload)]
        status := .inLoop
        iterations := (loopWith busyPool).iterations + 1 } :=
  forBody_submit_rejected 3 0 (loopWith busyPool) m7 [] busyPool busyPool ErrPoolOverload
    rfl (by decide) rfl rfl (by decide)

/-- Witness of `forBody_submit_accepted`: message 7 arrives while the pool is
idle. -/
theorem forBody_submit_accepted_witness :
    ({ idlePool with tasks := [dispatchTask m7] } : Pool).tasks =
      idlePool.tasks ++ [[Effect.CallBack (some m7) none, Effect.AckID m7.ID]] ∧
    forBody (some 3) 0 (loopWith idlePool) =
      { world :=
          { (loopWith idlePool).world with
            chan := { (loopWith idlePool).world.chan with buf := [] }
            globals :=
              { (loopWith idlePool).world.globals with
                subscriptMsgPool := some { idlePool with tasks := [dispatchTask m7] } } }
        trace := (loopWith idlePool).trace
        status := .inLoop
        iterations := (loopWith idlePool).iterations + 1 } ∧
    step (some 3) (forBody (some 3) 0 (loopWith idlePool)) (.work idlePool.tasks.length) =
      { world :=
          { (loopWith idlePool).world with
            chan := { (loopWith idlePool).world.chan with buf := [] } }
        trace := (loopWith idlePool).trace ++ [.CallBack (some m7) none, .AckID m7.ID]
        status := .inLoop
        iterations := (loopWith idlePool).iterations + 1 } :=
  forBody_submit_accepted 3 0 (loopWith idlePool) m7 [] idlePool
    { idlePool with tasks := [dispatchTask m7] } rfl (by decide) rfl rfl (by decide)

/-- The `select` statement never ends in a `break`: the `break` of the `ctx`
and `done` clauses ends the `select` itself. -/
theorem selectStmt_ctl_ne_brk (c : Case) (w : World) : (selectStmt c w).ctl ≠ .brk := by
  unfold selectStmt
  split
  · simp
  · next e hne =>
    intro hctl
    exact hne _ _ (by rw [← hctl])

/-- A round of the `for` never takes a call that is in the loop out of it by
returning. -/
theorem forBody_never_returns (srcCon : Option Handle) (pick : Nat) (l : Loop)
    (h : l.status ≠ .returned) : (forBody srcCon pick l).status ≠ .returned := by
  unfold forBody
  split
  · exact h
  · exact h
  · next hin =>
    cases srcCon with
    | none => simp
    | some con =>
      simp only
      cases hc : choose pick l.world with
      | none => exact h
      | some c =>
        have hb := selectStmt_ctl_ne_brk c l.world
        simp only
        cases hctl : (selectStmt c l.world).ctl <;> simp_all

/-- No step takes a call that is in the loop out of it by returning. -/
theorem step_never_returns (srcCon : Option Handle) (l : Loop) (s : Step)
    (h : l.status ≠ .returned) : (step srcCon l s).status ≠ .returned := by
  cases s with
  | iterate pick => exact forBody_never_returns srcCon pick l h
  | deliver m => simp only [step]; split <;> exact h
  | closeChan => exact h
  | cancel => exact h
  | shutdown => simp only [step]; split <;> exact h
  | work i =>
    simp only [step]
    split
    · exact h
    · split <;> exact h

/-- Once in its `for`, `SubscribeMsg` never returns: whatever happens around
it (cancellation of `ctx`, a value on `done`, messages, a closed channel), the
call is still in the loop or has panicked. -/
theorem run_never_returns (srcCon : Option Handle) (steps : List Step) (l : Loop)
    (h : l.status ≠ .returned) : (run srcCon l steps).status ≠ .returned := by
  induction steps generalizing l with
  | nil => exact h
  | cons s rest ih => exact ih (step srcCon l s) (step_never_returns srcCon l s h)

/-- Claim C1, evaluated on the code.  With `ctx` cancelled before the call, the
first round of the loop can only take the `ctx` clause; the call is then still
in its `for`, and when message 7 arrives afterwards it is submitted, the
callback is called with it and it is acknowledged.  The same happens after the
loop has taken the shutdown value from `done`. -/
theorem SubscribeMsg_break_stays_in_loop :
    readyCases
        { globals := (NewConsumer okBroker "-7f1c" 1700000000 "orders" readyGlobals).globals
          chan := { buf := [], closed := false }
          ctxDone := true } = [Case.ctx] ∧
    (SubscribeMsg okBroker "-7f1c" 1700000000 "orders" { buf := [], closed := false } true
      [.iterate 0] readyGlobals).status = .inLoop ∧
    (SubscribeMsg okBroker "-7f1c" 1700000000 "orders" { buf := [], closed := false } true
      [.iterate 0] readyGlobals).iterations = 1 ∧
    (SubscribeMsg okBroker "-7f1c" 1700000000 "orders" { buf := [], closed := false } true
      [.iterate 0, .deliver m7, .iterate 0, .work 0] readyGlobals).status = .inLoop ∧
    (SubscribeMsg okBroker "-7f1c" 1700000000 "orders" { buf := [], closed := false } true
      [.iterate 0, .deliver m7, .iterate 0, .work 0] readyGlobals).trace =
        [.Subscribe (consumerOptions "orders" "-7f1c" 1700000000),
          .CallBack (some m7) none, .AckID 7] ∧
    (SubscribeMsg okBroker "-7f1c" 1700000000 "orders" { buf := [], closed := false } false
      [.shutdown, .iterate 0] readyGlobals).status = .inLoop ∧
    (SubscribeMsg okBroker "-7f1c" 1700000000 "orders" { buf := [], closed := false } false
      [.shutdown, .iterate 0] readyGlobals).iterations = 1 ∧
    (SubscribeMsg okBroker "-7f1c" 1700000000 "orders" { buf := [], closed := false } false
      [.shutdown, .iterate 0, .deliver m7, .iterate 0, .work 0] readyGlobals).trace =
        [.Subscribe (consumerOptions "orders" "-7f1c" 1700000000),
          .CallBack (some m7) none, .AckID 7] := by
  decide

/-- Claim C10, evaluated on the code.  With the delivery channel closed and
empty, `ctx` not cancelled and `done` empty, the `select` is never parked: the
receive clause is ready at every round, whatever the pick.  Any number of
rounds run back to back, with nothing happening in between, and leave the loop
where it was: no call is made and the pool is untouched, only the count of
rounds grows. -/
theorem closed_chan_busy_spin (h : Handle) (cli : Option Client) (pool : Option Pool)
    (trace : List Effect) (n : Nat) (picks : List Nat) :
    (∀ pick, choose pick
        { globals := { cli := cli, done := 0, subscriptMsgPool := pool }
          chan := { buf := [], closed := true }
          ctxDone := false } = some Case.msg) ∧
    run (some h)
        { world :=
            { globals := { cli := cli, done := 0, subscriptMsgPool := pool }
              chan := { buf := [], closed := true }
              ctxDone := false }
          trace := trace
          status := .inLoop
          iterations := n }
        (picks.map Step.iterate) =
      { world :=
          { globals := { cli := cli, done := 0, subscriptMsgPool := pool }
            chan := { buf := [], closed := true }
            ctxDone := false }
        trace := trace
        status := .inLoop
        iterations := n + picks.length } := by
  have hchoose : ∀ pick, choose pick
      { globals := { cli := cli, done := 0, subscriptMsgPool := pool }
        chan := { buf := [], closed := true }
        ctxDone := false } = some Case.msg := by
    intro pick
    simp [choose, readyCases, Case.ready, Nat.mod_one]
  refine ⟨hchoose, ?_⟩
  induction picks generalizing n with
  | nil => rfl
  | cons pick rest ih =>
    have hround : step (some h)
        { world :=
            { globals := { cli := cli, done := 0, subscriptMsgPool := pool }
              chan := { buf := [], closed := true }
              ctxDone := false }
          trace := trace
          status := .inLoop
          iterations := n } (Step.iterate pick) =
        { world :=
            { globals := { cli := cli, done := 0, subscriptMsgPool := pool }
              chan := { buf := [], closed := true }
              ctxDone := false }
          trace := trace
          status := .inLoop
          iterations := n + 1 } := by
      simp [step, forBody, hchoose, selectStmt, caseBody]
    simp only [List.map_cons, run, List.foldl_cons, hround]
    have := ih (n + 1)
    simp only [run] at this
    rw [this]
    simp [Nat.add_assoc, Nat.add_comm 1]

end pulsarsdk
